import Mathlib

set_option maxRecDepth 20000
set_option maxHeartbeats 2000000

/-!
# Verification of the skill catalog (NicoCodeFlow full-stack boilerplate)

Shallow embedding of the repository's code-generation "skills".  Each skill is
a pure function from a validated argument record to a `SkillResult`; input
validation is a Zod object schema, embedded here as a parser from a JSON value
to the argument record.  Template strings are transcribed verbatim from the
TypeScript sources (brace characters are written with the escapes \x7b and
\x7d).  The only impure ingredient in the corpus is `Date.now()` in
`migration_expert`, modelled by an explicit environment carrying the clock.
JavaScript exceptions (only `Array(n)` with an invalid length can throw in
this corpus) are modelled with `Except`.
-/

/-! ## JSON values (the untyped input of a skill before validation) -/

/-- A JSON-like value, the raw input handed to a skill's Zod schema.
Numbers are embedded as integers: every numeric field in the corpus is used
as an integer, and none of the claims depends on fractional values. -/
inductive Json where
  | null : Json
  | bool (b : Bool) : Json
  | num (n : Int) : Json
  | str (s : String) : Json
  | arr (elems : List Json) : Json
  | obj (fields : List (String × Json)) : Json

/-- Field lookup in a JSON object (first binding wins, like a JS object). -/
def jLookup (fields : List (String × Json)) (k : String) : Option Json :=
  fields.lookup k

/-! ## JavaScript string helpers used by the handlers -/

/-- ASCII uppercase of one character (`String.prototype.toUpperCase`,
restricted to ASCII, which covers identifiers used by the templates). -/
def asciiUpperChar (c : Char) : Char :=
  if 97 ≤ c.toNat ∧ c.toNat ≤ 122 then Char.ofNat (c.toNat - 32) else c

/-- ASCII lowercase of one character (`String.prototype.toLowerCase`,
restricted to ASCII). -/
def asciiLowerChar (c : Char) : Char :=
  if 65 ≤ c.toNat ∧ c.toNat ≤ 90 then Char.ofNat (c.toNat + 32) else c

/-- Embedding of `s.toUpperCase()` -/
def jsToUpperCase (s : String) : String := ⟨s.data.map asciiUpperChar⟩

/-- Embedding of `s.toLowerCase()` -/
def jsToLowerCase (s : String) : String := ⟨s.data.map asciiLowerChar⟩

/-- Embedding of `s.replace(/\s/g, '')`: drop every whitespace character. -/
def stripWhitespace (s : String) : String :=
  ⟨s.data.filter (fun c => !c.isWhitespace)⟩

/-- JSON string escaping as performed by `JSON.stringify` on the characters
that can actually occur in this corpus (quote, backslash, control chars). -/
def jsonEscapeChar (c : Char) : String :=
  if c = '"' then "\\\""
  else if c = '\\' then "\\\\"
  else if c = '\n' then "\\n"
  else if c = '\t' then "\\t"
  else if c = '\r' then "\\r"
  else String.singleton c

/-- Embedding of `JSON.stringify` of a string. -/
def jsonStringifyStr (s : String) : String :=
  "\"" ++ String.join (s.data.map jsonEscapeChar) ++ "\""

/-- Embedding of `JSON.stringify` of an array of strings. -/
def jsonStringifyArr (xs : List String) : String :=
  "[" ++ String.intercalate "," (xs.map jsonStringifyStr) ++ "]"

/-- Embedding of `Array(n).fill(item).join(sep)`.  JavaScript throws a `RangeError` when
`n` is negative (or not an integer; integrality is implicit in the `Int`
carrier), otherwise it yields `n` copies of `item` joined by `sep`. -/
def jsArrayFillJoin (n : Int) (item sep : String) : Except String String :=
  if n < 0 then .error "RangeError: Invalid array length"
  else .ok (String.intercalate sep (List.replicate n.toNat item))

/-- Embedding of `s || dflt` for an optional string: JavaScript falls back on `undefined`
and on the empty string (which is falsy). -/
def jsOrElse (s : Option String) (dflt : String) : String :=
  match s with
  | none => dflt
  | some v => if v = "" then dflt else v

/-- Boolean prefix test on character lists. -/
def charsPrefix : List Char → List Char → Bool
  | [], _ => true
  | _ :: _, [] => false
  | a :: as, b :: bs => a = b && charsPrefix as bs

/-- Boolean infix test on character lists. -/
def charsInfix (pat : List Char) : List Char → Bool
  | [] => pat.isEmpty
  | c :: rest => charsPrefix pat (c :: rest) || charsInfix pat rest

/-- Decidable substring containment on strings (`s.includes(pat)`). -/
def strContains (s pat : String) : Bool := charsInfix pat.data s.data

/-! ## The skill contract

The shared `types.ts` (bundled at the end of `src/README.md`) declares
`SkillResult<T = any>` as `{success: boolean, data?: T, error?: string,
metadata?: Record<string, any>}`; the spec's §3 data model reads the same.
The `any`-typed payloads are embedded as the closed set of value shapes the
handlers actually produce. -/

/-- Metadata values (free-form JSON-like mapping entries). -/
inductive MetaVal where
  | s (v : String) : MetaVal
  | i (v : Int) : MetaVal
  | b (v : Bool) : MetaVal
  | nullv : MetaVal
  | list (vs : List MetaVal) : MetaVal
  | obj (fields : List (String × MetaVal)) : MetaVal

/-- The `data` payload of a result: a single source string, a mapping from
filename to file content, or a structured report object (the shape
`analyze_hook_logic` returns; `data` is `any`-typed in `types.ts`). -/
inductive SkillData where
  | str (s : String) : SkillData
  | files (fs : List (String × String)) : SkillData
  | obj (fields : List (String × MetaVal)) : SkillData

/-- The result record returned by every handler (from `types.ts`). -/
structure SkillResult where
  success : Bool
  data : Option SkillData := none
  error : Option String := none
  metadata : Option (List (String × MetaVal)) := none

/-- The ambient environment of an invocation: the only impure ingredient any
handler reads is the clock (`Date.now()`, in `migration_expert`). -/
structure Env where
  now : Nat

/-- A skill as packaged for the corpus-level theorems: its registry name, the
type of its validated arguments and its handler.  The handler result is an
`Except` so that a JavaScript runtime exception can be modelled. -/
structure Skill where
  name : String
  Input : Type
  handler : Env → Input → Except String SkillResult

/-! ## role_guard_generator (src/backend/security/role_guard_generator.ts) -/

/-- Validated arguments of `RoleGuardGeneratorSchema`. -/
structure RoleGuardArgs where
  rolesEnumName : String
  defaultRoles : List String
  jwtPayloadType : String
deriving DecidableEq

/-- The `roles.decorator.ts` template of `role_guard_generator`. -/
def roleGuardDecoratorCode (rolesEnumName : String) : String :=
  "import \x7b SetMetadata \x7d from '@nestjs/common';\nimport \x7b " ++ rolesEnumName
  ++ " \x7d from './roles.enum';\n\nexport const ROLES_KEY = 'roles';\nexport const Roles = (...roles: "
  ++ rolesEnumName ++ "[]) => SetMetadata(ROLES_KEY, roles);\n"

/-- The `roles.enum.ts` template of `role_guard_generator`. -/
def roleGuardEnumCode (rolesEnumName : String) (defaultRoles : List String) : String :=
  "export enum " ++ rolesEnumName ++ " \x7b\n"
  ++ String.intercalate "\n"
      (defaultRoles.map (fun r => "  " ++ jsToUpperCase r ++ " = '" ++ r ++ "',"))
  ++ "\n\x7d"

/-- The `roles.guard.ts` template of `role_guard_generator`. -/
def roleGuardGuardCode (rolesEnumName jwtPayloadType : String) : String :=
  "import \x7b Injectable, CanActivate, ExecutionContext, ForbiddenException \x7d from '@nestjs/common';\nimport \x7b Reflector \x7d from '@nestjs/core';\nimport \x7b ROLES_KEY, "
  ++ rolesEnumName
  ++ " \x7d from './roles.decorator';\nimport \x7b "
  ++ jwtPayloadType
  ++ " \x7d from '../auth/interfaces/jwt-payload.interface'; // Adjust path as needed\n\n@Injectable()\nexport class RolesGuard implements CanActivate \x7b\n  constructor(private reflector: Reflector) \x7b\x7d\n\n  canActivate(context: ExecutionContext): boolean \x7b\n    const requiredRoles = this.reflector.getAllAndOverride<"
  ++ rolesEnumName
  ++ "[]>(ROLES_KEY, [\n      context.getHandler(),\n      context.getClass(),\n    ]);\n\n    if (!requiredRoles) \x7b\n      return true; // No roles required, access granted (or rely on jwt guard)\n    \x7d\n\n    const \x7b user \x7d = context.switchToHttp().getRequest();\n    if (!user) \x7b\n        throw new ForbiddenException('No user attached to request. Ensure JwtAuthGuard is running before RolesGuard.');\n    \x7d\n    \n    // Logic: User must have at least one of the required roles\n    // Adjust 'user.role' based on your actual JWT structure\n    const hasRole = requiredRoles.some((role) => user.role === role);\n    \n    return hasRole;\n  \x7d\n\x7d\n"

/-- Handler of `role_guard_generator`. -/
def roleGuardHandler (args : RoleGuardArgs) : SkillResult :=
  { success := true
    data := some (.files
      [("roles.enum.ts", roleGuardEnumCode args.rolesEnumName args.defaultRoles),
       ("roles.decorator.ts", roleGuardDecoratorCode args.rolesEnumName),
       ("roles.guard.ts", roleGuardGuardCode args.rolesEnumName args.jwtPayloadType)])
    metadata := some
      [("guardName", .s "RolesGuard"),
       ("strategies", .list [.s "jwt", .s "reflector"])] }

/-- Zod parsing of a string field that has a declared `.default`. -/
def parseStrD (fields : List (String × Json)) (k dflt : String) : Option String :=
  match jLookup fields k with
  | none => some dflt
  | some (.str s) => some s
  | some _ => none

/-- Zod parsing of a required string field. -/
def parseStr (fields : List (String × Json)) (k : String) : Option String :=
  match jLookup fields k with
  | some (.str s) => some s
  | _ => none

/-- Zod parsing of a boolean field with a declared `.default`. -/
def parseBoolD (fields : List (String × Json)) (k : String) (dflt : Bool) : Option Bool :=
  match jLookup fields k with
  | none => some dflt
  | some (.bool b) => some b
  | some _ => none

/-- Zod parsing of a list of strings. -/
def parseStrList : List Json → Option (List String)
  | [] => some []
  | .str s :: rest =>
    match parseStrList rest with
    | some ss => some (s :: ss)
    | none => none
  | _ :: _ => none

/-- Zod parsing of a `z.array(z.string())` field with a declared `.default`. -/
def parseStrArrD (fields : List (String × Json)) (k : String) (dflt : List String) :
    Option (List String) :=
  match jLookup fields k with
  | none => some dflt
  | some (.arr xs) => parseStrList xs
  | some _ => none

/-- Embedding of `RoleGuardGeneratorSchema.parse`: every field has a declared default. -/
def roleGuardParse (j : Json) : Option RoleGuardArgs :=
  match j with
  | .obj fields => do
    let rolesEnumName ← parseStrD fields "rolesEnumName" "UserRole"
    let defaultRoles ← parseStrArrD fields "defaultRoles" ["admin", "user"]
    let jwtPayloadType ← parseStrD fields "jwtPayloadType" "JwtPayload"
    pure ⟨rolesEnumName, defaultRoles, jwtPayloadType⟩
  | _ => none

/-- Schema-validated invocation of `role_guard_generator`. -/
def roleGuardInvoke (j : Json) : Option SkillResult :=
  (roleGuardParse j).map roleGuardHandler

/-! ## access_list_manager (src/backend/security/access_list_manager.ts) -/

/-- Embedding of `z.enum(['whitelist', 'blacklist'])` -/
inductive AclType where
  | whitelist : AclType
  | blacklist : AclType
deriving DecidableEq

/-- The wire string of an `AclType` value. -/
def aclTypeKey : AclType → String
  | .whitelist => "whitelist"
  | .blacklist => "blacklist"

/-- Embedding of `z.enum(['allow', 'deny', 'log_only'])` -/
inductive AclAction where
  | allow : AclAction
  | deny : AclAction
  | logOnly : AclAction
deriving DecidableEq

/-- The wire string of an `AclAction` value. -/
def aclActionKey : AclAction → String
  | .allow => "allow"
  | .deny => "deny"
  | .logOnly => "log_only"

/-- Validated arguments of `AccessListManagerSchema`. -/
structure AccessListArgs where
  type : AclType
  ips : List String
  action : AclAction
deriving DecidableEq

/-- The IPv4 group pattern `25[0-5]|2[0-4][0-9]|[01]?[0-9][0-9]?` of the
`ips` regex, decided on the characters of one dot-separated group (the three
alternatives cover: one digit; two digits; three digits that denote 0–255
with a leading 0, 1 or a 2-prefix within range). -/
def ipGroupOk (s : String) : Bool :=
  match s.data with
  | [c] => c.isDigit
  | [c₁, c₂] => c₁.isDigit && c₂.isDigit
  | [c₁, c₂, c₃] =>
    (c₁ = '2' && c₂ = '5' && '0' ≤ c₃ && c₃ ≤ '5')
    || (c₁ = '2' && '0' ≤ c₂ && c₂ ≤ '4' && c₃.isDigit)
    || ((c₁ = '0' || c₁ = '1') && c₂.isDigit && c₃.isDigit)
  | _ => false

/-- Split a character list at every `'.'` (the anchored regex demands exactly
four groups separated by literal dots, and no alternative can match a dot,
so the regex accepts iff every dot-separated group matches the pattern and
there are exactly four of them). -/
def splitDots (l : List Char) : List (List Char) :=
  l.foldr
    (fun c acc =>
      if c = '.' then [] :: acc
      else
        match acc with
        | [] => [[c]]
        | g :: gs => (c :: g) :: gs)
    [[]]

/-- The full anchored IPv4 regex of `AccessListManagerSchema`. -/
def isValidIPv4 (s : String) : Bool :=
  let groups := splitDots s.data
  groups.length = 4 && groups.all (fun g => ipGroupOk ⟨g⟩)

/-- The action fragment of the whitelist branch of the template. -/
def aclWhitelistActionFragment (action : AclAction) : String :=
  if action = .logOnly then
    "\n      this.logger.warn(`Access from unauthorized IP: $\x7bclientIp\x7d`);\n      return true;\n      "
  else
    "\n      this.logger.warn(`Blocked access from unauthorized IP: $\x7bclientIp\x7d`);\n      throw new ForbiddenException('Access denied from your IP address');\n      "

/-- The action fragment of the blacklist branch of the template. -/
def aclBlacklistActionFragment (action : AclAction) : String :=
  if action = .logOnly then
    "\n       this.logger.warn(`Detected blacklisted IP: $\x7bclientIp\x7d`);\n       return true;\n       "
  else
    "\n       this.logger.warn(`Blocked blacklisted IP: $\x7bclientIp\x7d`);\n       throw new ForbiddenException('Your IP address has been blocked');\n       "

/-- The type-dependent branch of the `access_list_manager` template. -/
def aclBranchFragment (type : AclType) (action : AclAction) : String :=
  if type = .whitelist then
    "\n    // Whitelist Logic: Allow ONLY if in list\n    const isAllowed = this.restrictedIps.includes(clientIp);\n    if (!isAllowed) \x7b\n      "
    ++ aclWhitelistActionFragment action
    ++ "\n    \x7d\n    return true;\n    "
  else
    "\n    // Blacklist Logic: Deny if IN list\n    const isBlocked = this.restrictedIps.includes(clientIp);\n    if (isBlocked) \x7b\n       "
    ++ aclBlacklistActionFragment action
    ++ "\n    \x7d\n    return true;\n    "

/-- The generated guard source of `access_list_manager`. -/
def accessListCode (args : AccessListArgs) : String :=
  let guardName := if args.type = .whitelist then "IpWhitelistGuard" else "IpBlacklistGuard"
  let ipsString := jsonStringifyArr args.ips
  "import \x7b Injectable, CanActivate, ExecutionContext, ForbiddenException, Logger \x7d from '@nestjs/common';\nimport \x7b Request \x7d from 'express';\n\n@Injectable()\nexport class "
  ++ guardName
  ++ " implements CanActivate \x7b\n  private readonly logger = new Logger("
  ++ guardName
  ++ ".name);\n  private readonly restrictedIps = "
  ++ ipsString
  ++ ";\n\n  canActivate(context: ExecutionContext): boolean \x7b\n    const request = context.switchToHttp().getRequest<Request>();\n    const clientIp = request.ip || request.connection.remoteAddress;\n\n    if (!clientIp) \x7b\n      this.logger.warn('Could not determine client IP');\n      return false; // Fail safe\n    \x7d\n\n    "
  ++ aclBranchFragment args.type args.action
  ++ "\n  \x7d\n\x7d\n"

/-- Handler of `access_list_manager`. -/
def accessListHandler (args : AccessListArgs) : SkillResult :=
  let guardName := if args.type = .whitelist then "IpWhitelistGuard" else "IpBlacklistGuard"
  { success := true
    data := some (.str (accessListCode args))
    metadata := some
      [("guard", .s guardName),
       ("config", .obj
         [("type", .s (aclTypeKey args.type)),
          ("count", .i args.ips.length),
          ("action", .s (aclActionKey args.action))])] }

/-- Zod parsing of the ips array: each element must be a string matching the
IPv4 regex. -/
def parseIpList : List Json → Option (List String)
  | [] => some []
  | .str s :: rest =>
    if isValidIPv4 s then
      match parseIpList rest with
      | some ss => some (s :: ss)
      | none => none
    else none
  | _ :: _ => none

/-- Zod parsing of the `type` enum field. -/
def parseAclType (fields : List (String × Json)) : Option AclType :=
  match jLookup fields "type" with
  | some (.str v) =>
    if v = "whitelist" then some .whitelist
    else if v = "blacklist" then some .blacklist
    else none
  | _ => none

/-- Zod parsing of the defaulted `action` enum field. -/
def parseAclAction (fields : List (String × Json)) : Option AclAction :=
  match jLookup fields "action" with
  | none => some .deny
  | some (.str v) =>
    if v = "allow" then some .allow
    else if v = "deny" then some .deny
    else if v = "log_only" then some .logOnly
    else none
  | some _ => none

/-- Embedding of `AccessListManagerSchema.parse`. -/
def accessListParse (j : Json) : Option AccessListArgs :=
  match j with
  | .obj fields => do
    let type ← parseAclType fields
    let ips ←
      match jLookup fields "ips" with
      | some (.arr xs) => parseIpList xs
      | _ => none
    let action ← parseAclAction fields
    pure ⟨type, ips, action⟩
  | _ => none

/-- Schema-validated invocation of `access_list_manager`. -/
def accessListInvoke (j : Json) : Option SkillResult :=
  (accessListParse j).map accessListHandler

/-! ## migration_expert (src/backend/database/migration_expert.ts) -/

/-- Validated arguments of `MigrationExpertSchema`. -/
structure MigrationArgs where
  migrationName : String
deriving DecidableEq

/-- The migration class template, as a function of the interpolated class
name (`migrationName` concatenated with the `Date.now()` timestamp). -/
def migrationCodeTemplate (className : String) : String :=
  "import \x7b MigrationInterface, QueryRunner \x7d from \"typeorm\";\n\nexport class "
  ++ className
  ++ " implements MigrationInterface \x7b\n    name = '"
  ++ className
  ++ "'\n\n    public async up(queryRunner: QueryRunner): Promise<void> \x7b\n        // Example: await queryRunner.query(`CREATE TABLE \"user\" ... `);\n        // Add your schema changes here\n    \x7d\n\n    public async down(queryRunner: QueryRunner): Promise<void> \x7b\n        // Example: await queryRunner.query(`DROP TABLE \"user\"`);\n        // Revert your schema changes here\n    \x7d\n\x7d\n"

/-- Handler of `migration_expert`, the one handler in the corpus that reads
the environment (`Date.now()`). -/
def migrationHandler (e : Env) (args : MigrationArgs) : SkillResult :=
  let timestamp := e.now
  let className := args.migrationName ++ toString timestamp
  { success := true
    data := some (.str (migrationCodeTemplate className))
    metadata := some
      [("migrationClass", .s className),
       ("timestamp", .i timestamp)] }

/-- The result of `migration_expert` as an explicit function of the input
name and the clock value only: the shape against which the handler is
compared to show that the timestamp is the sole impure content. -/
def mkMigrationResult (name : String) (t : Nat) : SkillResult :=
  { success := true
    data := some (.str (migrationCodeTemplate (name ++ toString t)))
    metadata := some
      [("migrationClass", .s (name ++ toString t)),
       ("timestamp", .i t)] }

/-! ## shadcn_expert (src/frontend/ui/shadcn_expert.ts) -/

/-- Embedding of `z.enum(["card", "form", "data-table", "modal"])` -/
inductive ComponentType where
  | card : ComponentType
  | form : ComponentType
  | dataTable : ComponentType
  | modal : ComponentType
deriving DecidableEq

/-- The wire string of a `ComponentType` value. -/
def componentTypeKey : ComponentType → String
  | .card => "card"
  | .form => "form"
  | .dataTable => "data-table"
  | .modal => "modal"

/-- Validated arguments of `ShadcnSchema`. -/
structure ShadcnArgs where
  componentType : ComponentType
  dataFields : List String
  componentName : Option String
  includeActions : Bool
  darkMode : Bool
deriving DecidableEq

/-- Embedding of `f.toLowerCase().replace(/\s/g, '')`: the identifier derived from a data
field label. -/
def fieldIdent (f : String) : String := stripWhitespace (jsToLowerCase f)

/-- Embedding of `componentType.charAt(0).toUpperCase() + componentType.slice(1)` -/
def capFirstAscii (s : String) : String :=
  match s.data with
  | [] => ""
  | c :: rest => ⟨asciiUpperChar c :: rest⟩

/-- Embedding of `fields[0]?.toLowerCase().replace(/\s/g, '') || 'title'` -/
def firstFieldIdent (fields : List String) : String :=
  match fields with
  | [] => "title"
  | f :: _ => if fieldIdent f = "" then "title" else fieldIdent f

/-- One left-to-right pass of `name.replace(/Modal|Dialog/g, '')`, with the
list length as fuel (each step consumes at least one character). -/
def scrubModalDialogAux : Nat → List Char → List Char
  | 0, l => l
  | _ + 1, [] => []
  | fuel + 1, c :: rest =>
    if ("Modal".data).isPrefixOf (c :: rest) then
      scrubModalDialogAux fuel ((c :: rest).drop 5)
    else if ("Dialog".data).isPrefixOf (c :: rest) then
      scrubModalDialogAux fuel ((c :: rest).drop 6)
    else
      c :: scrubModalDialogAux fuel rest

/-- Embedding of `name.replace(/Modal|Dialog/g, '')` -/
def scrubModalDialog (s : String) : String :=
  ⟨scrubModalDialogAux s.data.length s.data⟩

/-- The `generateCard` template of `shadcn_expert`. -/
def generateCard (name : String) (fields : List String)
    (includeActions darkMode : Bool) : String :=
  let fieldItems := String.intercalate "\n"
    (fields.map fun f =>
      "\n          <div className=\"flex justify-between\">\n            <span className=\"text-muted-foreground\">"
      ++ f
      ++ "</span>\n            <span className=\"font-medium\">\x7bdata."
      ++ fieldIdent f
      ++ "\x7d</span>\n          </div>")
  "import \x7b Card, CardContent, CardDescription, CardFooter, CardHeader, CardTitle \x7d from \"@/components/ui/card\";\nimport \x7b Button \x7d from \"@/components/ui/button\";\nimport \x7b Badge \x7d from \"@/components/ui/badge\";\n"
  ++ (if includeActions then "import \x7b Edit, Trash2 \x7d from \"lucide-react\";" else "")
  ++ "\n\ninterface "
  ++ name
  ++ "Props \x7b\n  data: \x7b\n    "
  ++ String.intercalate "\n    " (fields.map fun f => fieldIdent f ++ ": string;")
  ++ "\n  \x7d;\n  "
  ++ (if includeActions then "onEdit?: () => void;\n  onDelete?: () => void;" else "")
  ++ "\n\x7d\n\nexport function "
  ++ name
  ++ "(\x7b data"
  ++ (if includeActions then ", onEdit, onDelete" else "")
  ++ " \x7d: "
  ++ name
  ++ "Props) \x7b\n  return (\n    <Card className=\""
  ++ (if darkMode then "bg-card hover:bg-accent/50 transition-colors" else "")
  ++ "\">\n      <CardHeader>\n        <CardTitle className=\"flex items-center justify-between\">\n          <span>\x7bdata."
  ++ firstFieldIdent fields
  ++ "\x7d</span>\n          <Badge variant=\"secondary\">Active</Badge>\n        </CardTitle>\n        <CardDescription>Card description</CardDescription>\n      </CardHeader>\n      <CardContent className=\"space-y-2\">\n        "
  ++ fieldItems
  ++ "\n      </CardContent>\n      "
  ++ (if includeActions then
      "<CardFooter className=\"flex justify-end gap-2\">\n        <Button variant=\"outline\" size=\"sm\" onClick=\x7bonEdit\x7d>\n          <Edit className=\"h-4 w-4 mr-1\" /> Edit\n        </Button>\n        <Button variant=\"destructive\" size=\"sm\" onClick=\x7bonDelete\x7d>\n          <Trash2 className=\"h-4 w-4 mr-1\" /> Delete\n        </Button>\n      </CardFooter>"
      else "")
  ++ "\n    </Card>\n  );\n\x7d"

/-- The `generateDataTable` template of `shadcn_expert`. -/
def generateDataTable (name : String) (fields : List String)
    (includeActions : Bool) : String :=
  let columns := String.join
    (fields.map fun f =>
      "\n  \x7b\n    accessorKey: \""
      ++ fieldIdent f
      ++ "\",\n    header: (\x7b column \x7d) => (\n      <Button variant=\"ghost\" onClick=\x7b() => column.toggleSorting(column.getIsSorted() === \"asc\")\x7d>\n        "
      ++ f
      ++ "\n        <ArrowUpDown className=\"ml-2 h-4 w-4\" />\n      </Button>\n    ),\n  \x7d,")
  "import \x7b ColumnDef \x7d from \"@tanstack/react-table\";\nimport \x7b Button \x7d from \"@/components/ui/button\";\nimport \x7b ArrowUpDown, MoreHorizontal \x7d from \"lucide-react\";\nimport \x7b\n  DropdownMenu,\n  DropdownMenuContent,\n  DropdownMenuItem,\n  DropdownMenuTrigger,\n\x7d from \"@/components/ui/dropdown-menu\";\n\nexport type "
  ++ name
  ++ "Data = \x7b\n  id: string;\n  "
  ++ String.intercalate "\n  " (fields.map fun f => fieldIdent f ++ ": string;")
  ++ "\n\x7d;\n\nexport const "
  ++ jsToLowerCase name
  ++ "Columns: ColumnDef<"
  ++ name
  ++ "Data>[] = [\n  "
  ++ columns
  ++ "\n  "
  ++ (if includeActions then
      "\x7b\n    id: \"actions\",\n    cell: (\x7b row \x7d) => \x7b\n      const item = row.original;\n      return (\n        <DropdownMenu>\n          <DropdownMenuTrigger asChild>\n            <Button variant=\"ghost\" className=\"h-8 w-8 p-0\">\n              <MoreHorizontal className=\"h-4 w-4\" />\n            </Button>\n          </DropdownMenuTrigger>\n          <DropdownMenuContent align=\"end\">\n            <DropdownMenuItem onClick=\x7b() => navigator.clipboard.writeText(item.id)\x7d>\n              Copy ID\n            </DropdownMenuItem>\n            <DropdownMenuItem>Edit</DropdownMenuItem>\n            <DropdownMenuItem className=\"text-destructive\">Delete</DropdownMenuItem>\n          </DropdownMenuContent>\n        </DropdownMenu>\n      );\n    \x7d,\n  \x7d,"
      else "")
  ++ "\n];"

/-- The `generateModal` template of `shadcn_expert`. -/
def generateModal (name : String) (fields : List String) : String :=
  let formFields := String.join
    (fields.map fun f =>
      "\n        <div className=\"grid gap-2\">\n          <Label htmlFor=\""
      ++ fieldIdent f
      ++ "\">"
      ++ f
      ++ "</Label>\n          <Input id=\""
      ++ fieldIdent f
      ++ "\" placeholder=\"Enter "
      ++ jsToLowerCase f
      ++ "\" />\n        </div>")
  "import \x7b Dialog, DialogContent, DialogDescription, DialogFooter, DialogHeader, DialogTitle, DialogTrigger \x7d from \"@/components/ui/dialog\";\nimport \x7b Button \x7d from \"@/components/ui/button\";\nimport \x7b Input \x7d from \"@/components/ui/input\";\nimport \x7b Label \x7d from \"@/components/ui/label\";\nimport \x7b useState \x7d from \"react\";\n\ninterface "
  ++ name
  ++ "Props \x7b\n  trigger?: React.ReactNode;\n  onSubmit?: (data: Record<string, string>) => void;\n\x7d\n\nexport function "
  ++ name
  ++ "(\x7b trigger, onSubmit \x7d: "
  ++ name
  ++ "Props) \x7b\n  const [open, setOpen] = useState(false);\n\n  const handleSubmit = (e: React.FormEvent) => \x7b\n    e.preventDefault();\n    const formData = new FormData(e.target as HTMLFormElement);\n    const data = Object.fromEntries(formData);\n    onSubmit?.(data as Record<string, string>);\n    setOpen(false);\n  \x7d;\n\n  return (\n    <Dialog open=\x7bopen\x7d onOpenChange=\x7bsetOpen\x7d>\n      <DialogTrigger asChild>\n        \x7btrigger || <Button>Open</Button>\x7d\n      </DialogTrigger>\n      <DialogContent className=\"sm:max-w-[425px]\">\n        <form onSubmit=\x7bhandleSubmit\x7d>\n          <DialogHeader>\n            <DialogTitle>"
  ++ scrubModalDialog name
  ++ "</DialogTitle>\n            <DialogDescription>\n              Fill in the details below and click save when you're done.\n            </DialogDescription>\n          </DialogHeader>\n          <div className=\"grid gap-4 py-4\">\n            "
  ++ formFields
  ++ "\n          </div>\n          <DialogFooter>\n            <Button type=\"button\" variant=\"outline\" onClick=\x7b() => setOpen(false)\x7d>\n              Cancel\n            </Button>\n            <Button type=\"submit\">Save</Button>\n          </DialogFooter>\n        </form>\n      </DialogContent>\n    </Dialog>\n  );\n\x7d"

/-- The `generateForm` template of `shadcn_expert`. -/
def generateForm (name : String) (fields : List String) : String :=
  let formFields := String.join
    (fields.map fun f =>
      "\n        <FormField\n          control=\x7bform.control\x7d\n          name=\""
      ++ fieldIdent f
      ++ "\"\n          render=\x7b(\x7b field \x7d) => (\n            <FormItem>\n              <FormLabel>"
      ++ f
      ++ "</FormLabel>\n              <FormControl>\n                <Input placeholder=\""
      ++ f
      ++ "\" \x7b...field\x7d />\n              </FormControl>\n              <FormMessage />\n            </FormItem>\n          )\x7d\n        />")
  let zodFields := String.intercalate "\n"
    (fields.map fun f =>
      "  " ++ fieldIdent f ++ ": z.string().min(1, \"" ++ f ++ " is required\"),")
  "import \x7b zodResolver \x7d from \"@hookform/resolvers/zod\";\nimport \x7b useForm \x7d from \"react-hook-form\";\nimport \x7b z \x7d from \"zod\";\nimport \x7b Button \x7d from \"@/components/ui/button\";\nimport \x7b Form, FormControl, FormField, FormItem, FormLabel, FormMessage \x7d from \"@/components/ui/form\";\nimport \x7b Input \x7d from \"@/components/ui/input\";\n\nconst formSchema = z.object(\x7b\n"
  ++ zodFields
  ++ "\n\x7d);\n\ntype FormValues = z.infer<typeof formSchema>;\n\ninterface "
  ++ name
  ++ "Props \x7b\n  onSubmit: (values: FormValues) => void;\n  defaultValues?: Partial<FormValues>;\n  isLoading?: boolean;\n\x7d\n\nexport function "
  ++ name
  ++ "(\x7b onSubmit, defaultValues, isLoading \x7d: "
  ++ name
  ++ "Props) \x7b\n  const form = useForm<FormValues>(\x7b\n    resolver: zodResolver(formSchema),\n    defaultValues: defaultValues || \x7b\n      "
  ++ String.intercalate ",\n      " (fields.map fun f => fieldIdent f ++ ": \"\"")
  ++ "\n    \x7d,\n  \x7d);\n\n  return (\n    <Form \x7b...form\x7d>\n      <form onSubmit=\x7bform.handleSubmit(onSubmit)\x7d className=\"space-y-4\">\n        "
  ++ formFields
  ++ "\n        <Button type=\"submit\" disabled=\x7bisLoading\x7d className=\"w-full\">\n          \x7bisLoading ? \"Saving...\" : \"Submit\"\x7d\n        </Button>\n      </form>\n    </Form>\n  );\n\x7d"

/-- The dispatch performed by the `switch` statement of the handler. -/
def shadcnCode (args : ShadcnArgs) (name : String) : String :=
  match args.componentType with
  | .card => generateCard name args.dataFields args.includeActions args.darkMode
  | .dataTable => generateDataTable name args.dataFields args.includeActions
  | .modal => generateModal name args.dataFields
  | .form => generateForm name args.dataFields

/-- Handler of `apply_shadcn_style` (`shadcn_expert`). -/
def shadcnHandler (args : ShadcnArgs) : SkillResult :=
  let name := jsOrElse args.componentName
    ("Generated" ++ capFirstAscii (componentTypeKey args.componentType))
  { success := true
    data := some (.str (shadcnCode args name))
    metadata := some
      [("style", .s "shadcn/ui"),
       ("component", .s (componentTypeKey args.componentType)),
       ("generatedName", .s name)] }

/-- Zod parsing of the `componentType` enum field of `ShadcnSchema`. -/
def parseComponentType (fields : List (String × Json)) : Option ComponentType :=
  match jLookup fields "componentType" with
  | some (.str v) =>
    if v = "card" then some .card
    else if v = "form" then some .form
    else if v = "data-table" then some .dataTable
    else if v = "modal" then some .modal
    else none
  | _ => none

/-- Zod parsing of an optional string field (`z.string().optional()`). -/
def parseStrOpt (fields : List (String × Json)) (k : String) :
    Option (Option String) :=
  match jLookup fields k with
  | none => some none
  | some (.str s) => some (some s)
  | some _ => none

/-- Embedding of `ShadcnSchema.parse`. -/
def shadcnParse (j : Json) : Option ShadcnArgs :=
  match j with
  | .obj fields => do
    let componentType ← parseComponentType fields
    let dataFields ←
      match jLookup fields "dataFields" with
      | some (.arr xs) => parseStrList xs
      | _ => none
    let componentName ← parseStrOpt fields "componentName"
    let includeActions ← parseBoolD fields "includeActions" true
    let darkMode ← parseBoolD fields "darkMode" true
    pure ⟨componentType, dataFields, componentName, includeActions, darkMode⟩
  | _ => none

/-- Schema-validated invocation of `apply_shadcn_style`. -/
def shadcnInvoke (j : Json) : Option SkillResult :=
  (shadcnParse j).map shadcnHandler

/-! ## table_generator (src/frontend/ui/table_generator.ts) -/

/-- One entry of the `columns` array of `TableGeneratorSchema`. -/
structure TableColumn where
  key : String
  label : String
  sortable : Bool
deriving DecidableEq

/-- Validated arguments of `TableGeneratorSchema`. -/
structure TableGeneratorArgs where
  tableName : String
  columns : List TableColumn
  withPagination : Bool
  withSearch : Bool
  withRowActions : Bool
deriving DecidableEq

/-- The `columnDefs` fragment of the `table_generator` handler. -/
def tableColumnDefs (columns : List TableColumn) : String :=
  String.join (columns.map fun col =>
    "\n  \x7b\n    accessorKey: \""
    ++ col.key
    ++ "\",\n    header: "
    ++ (if col.sortable then
        "(\x7b column \x7d) => (\n      <Button variant=\"ghost\" onClick=\x7b() => column.toggleSorting(column.getIsSorted() === \"asc\")\x7d>\n        "
        ++ col.label
        ++ "\n        <ArrowUpDown className=\"ml-2 h-4 w-4\" />\n      </Button>\n    )"
        else "\"" ++ col.label ++ "\"")
    ++ ",\n  \x7d,")

/-- The row-actions column fragment (included when `withRowActions`). -/
def tableRowActionsBlock : String :=
  "\x7b\n    id: \"actions\",\n    cell: (\x7b row \x7d) => (\n      <DropdownMenu>\n        <DropdownMenuTrigger asChild>\n          <Button variant=\"ghost\" className=\"h-8 w-8 p-0\">\n            <MoreHorizontal className=\"h-4 w-4\" />\n          </Button>\n        </DropdownMenuTrigger>\n        <DropdownMenuContent align=\"end\">\n          <DropdownMenuItem>Edit</DropdownMenuItem>\n          <DropdownMenuItem className=\"text-destructive\">Delete</DropdownMenuItem>\n        </DropdownMenuContent>\n      </DropdownMenu>\n    ),\n  \x7d,"

/-- The search-input fragment (included when `withSearch`). -/
def tableSearchBlock : String :=
  "<Input\n        placeholder=\"Search...\"\n        value=\x7bglobalFilter\x7d\n        onChange=\x7b(e) => setGlobalFilter(e.target.value)\x7d\n        className=\"max-w-sm\"\n      />"

/-- The pagination row-model line of the `useReactTable` configuration
(included when `withPagination`). -/
def tablePagModelLine : String :=
  "getPaginationRowModel: getPaginationRowModel(),"

/-- The Previous/Next pagination button block (included when
`withPagination`). -/
def tablePagButtonsBlock : String :=
  "<div className=\"flex items-center justify-end gap-2\">\n        <Button variant=\"outline\" size=\"sm\" onClick=\x7b() => table.previousPage()\x7d disabled=\x7b!table.getCanPreviousPage()\x7d>\n          Previous\n        </Button>\n        <Button variant=\"outline\" size=\"sm\" onClick=\x7b() => table.nextPage()\x7d disabled=\x7b!table.getCanNextPage()\x7d>\n          Next\n        </Button>\n      </div>"

/-- The `table_generator` template up to the pagination row-model hole. -/
def tableCodePre (args : TableGeneratorArgs) : String :=
  "\"use client\";\nimport \x7b useState \x7d from \"react\";\nimport \x7b\n  ColumnDef,\n  flexRender,\n  getCoreRowModel,\n  getSortedRowModel,\n  getFilteredRowModel,\n  getPaginationRowModel,\n  useReactTable,\n  SortingState,\n\x7d from \"@tanstack/react-table\";\nimport \x7b Table, TableBody, TableCell, TableHead, TableHeader, TableRow \x7d from \"@/components/ui/table\";\nimport \x7b Button \x7d from \"@/components/ui/button\";\nimport \x7b Input \x7d from \"@/components/ui/input\";\nimport \x7b ArrowUpDown, MoreHorizontal \x7d from \"lucide-react\";\nimport \x7b DropdownMenu, DropdownMenuContent, DropdownMenuItem, DropdownMenuTrigger \x7d from \"@/components/ui/dropdown-menu\";\n\nexport type "
  ++ args.tableName
  ++ "Row = \x7b\n  id: string;\n  "
  ++ String.intercalate "\n  " (args.columns.map fun c => c.key ++ ": string;")
  ++ "\n\x7d;\n\nconst columns: ColumnDef<"
  ++ args.tableName
  ++ "Row>[] = [\n  "
  ++ tableColumnDefs args.columns
  ++ "\n  "
  ++ (if args.withRowActions then tableRowActionsBlock else "")
  ++ "\n];\n\ninterface "
  ++ args.tableName
  ++ "Props \x7b\n  data: "
  ++ args.tableName
  ++ "Row[];\n\x7d\n\nexport function "
  ++ args.tableName
  ++ "(\x7b data \x7d: "
  ++ args.tableName
  ++ "Props) \x7b\n  const [sorting, setSorting] = useState<SortingState>([]);\n  const [globalFilter, setGlobalFilter] = useState(\"\");\n\n  const table = useReactTable(\x7b\n    data,\n    columns,\n    getCoreRowModel: getCoreRowModel(),\n    getSortedRowModel: getSortedRowModel(),\n    getFilteredRowModel: getFilteredRowModel(),\n    "

/-- The `table_generator` template between the two pagination holes. -/
def tableCodeMid (args : TableGeneratorArgs) : String :=
  "\n    onSortingChange: setSorting,\n    onGlobalFilterChange: setGlobalFilter,\n    state: \x7b sorting, globalFilter \x7d,\n  \x7d);\n\n  return (\n    <div className=\"space-y-4\">\n      "
  ++ (if args.withSearch then tableSearchBlock else "")
  ++ "\n      \n      <div className=\"rounded-md border\">\n        <Table>\n          <TableHeader>\n            \x7btable.getHeaderGroups().map((hg) => (\n              <TableRow key=\x7bhg.id\x7d>\n                \x7bhg.headers.map((h) => (\n                  <TableHead key=\x7bh.id\x7d>\n                    \x7bh.isPlaceholder ? null : flexRender(h.column.columnDef.header, h.getContext())\x7d\n                  </TableHead>\n                ))\x7d\n              </TableRow>\n            ))\x7d\n          </TableHeader>\n          <TableBody>\n            \x7btable.getRowModel().rows?.length ? (\n              table.getRowModel().rows.map((row) => (\n                <TableRow key=\x7brow.id\x7d>\n                  \x7brow.getVisibleCells().map((cell) => (\n                    <TableCell key=\x7bcell.id\x7d>\n                      \x7bflexRender(cell.column.columnDef.cell, cell.getContext())\x7d\n                    </TableCell>\n                  ))\x7d\n                </TableRow>\n              ))\n            ) : (\n              <TableRow>\n                <TableCell colSpan=\x7bcolumns.length\x7d className=\"h-24 text-center\">\n                  No results.\n                </TableCell>\n              </TableRow>\n            )\x7d\n          </TableBody>\n        </Table>\n      </div>\n\n      "

/-- The tail of the `table_generator` template, after the pagination
buttons hole. -/
def tableCodeEnd : String :=
  "\n    </div>\n  );\n\x7d"

/-- The generated source of `table_generator`: the template with the two
`withPagination` holes filled conditionally. -/
def tableGeneratorCode (args : TableGeneratorArgs) : String :=
  tableCodePre args
  ++ (if args.withPagination then tablePagModelLine else "")
  ++ tableCodeMid args
  ++ (if args.withPagination then tablePagButtonsBlock else "")
  ++ tableCodeEnd

/-- Handler of `table_generator`. -/
def tableGeneratorHandler (args : TableGeneratorArgs) : SkillResult :=
  { success := true
    data := some (.str (tableGeneratorCode args))
    metadata := some
      [("tableName", .s args.tableName),
       ("columns", .i args.columns.length),
       ("features", .obj
         [("withPagination", .b args.withPagination),
          ("withSearch", .b args.withSearch),
          ("withRowActions", .b args.withRowActions)])] }

/-- Zod parsing of one element of the `columns` array. -/
def parseTableColumn (j : Json) : Option TableColumn :=
  match j with
  | .obj fields => do
    let key ← parseStr fields "key"
    let label ← parseStr fields "label"
    let sortable ← parseBoolD fields "sortable" true
    pure ⟨key, label, sortable⟩
  | _ => none

/-- Zod parsing of the `columns` array. -/
def parseTableColumns : List Json → Option (List TableColumn)
  | [] => some []
  | x :: xs => do
    let c ← parseTableColumn x
    let cs ← parseTableColumns xs
    pure (c :: cs)

/-- Embedding of `TableGeneratorSchema.parse`: `tableName` and `columns` are required and
carry no non-emptiness constraint; the three feature flags default to
`true`. -/
def tableGeneratorParse (j : Json) : Option TableGeneratorArgs :=
  match j with
  | .obj fields => do
    let tableName ← parseStr fields "tableName"
    let columns ←
      match jLookup fields "columns" with
      | some (.arr xs) => parseTableColumns xs
      | _ => none
    let withPagination ← parseBoolD fields "withPagination" true
    let withSearch ← parseBoolD fields "withSearch" true
    let withRowActions ← parseBoolD fields "withRowActions" true
    pure ⟨tableName, columns, withPagination, withSearch, withRowActions⟩
  | _ => none

/-- Schema-validated invocation of `table_generator`. -/
def tableGeneratorInvoke (j : Json) : Option SkillResult :=
  (tableGeneratorParse j).map tableGeneratorHandler

/-! ## skeleton_loader (src/frontend/ui/skeleton_loader.ts) -/

/-- Embedding of `z.enum(['card', 'table', 'list', 'profile', 'form'])` -/
inductive SkeletonLayout where
  | card : SkeletonLayout
  | table : SkeletonLayout
  | list : SkeletonLayout
  | profile : SkeletonLayout
  | form : SkeletonLayout
deriving DecidableEq

/-- The wire string of a `SkeletonLayout` value. -/
def skeletonLayoutKey : SkeletonLayout → String
  | .card => "card"
  | .table => "table"
  | .list => "list"
  | .profile => "profile"
  | .form => "form"

/-- Validated arguments of `SkeletonLoaderSchema`.  `itemCount` is
`z.number()` with no sign constraint, so negative values validate. -/
structure SkeletonArgs where
  componentName : String
  layout : SkeletonLayout
  itemCount : Int
  animated : Bool
deriving DecidableEq

/-- The `layouts` record of the `skeleton_loader` handler.  The record
literal is evaluated eagerly, so the three `Array(itemCount)` fills run for
every invocation; a negative `itemCount` therefore raises a `RangeError`
before any lookup happens.  Construction order follows the source (card,
table, list, profile, form). -/
def skeletonLayouts (itemCount : Int) (animationClass : String) :
    Except String (List (String × String)) :=
  match jsArrayFillJoin itemCount
      ("<div className=\"h-12 bg-muted/50 rounded " ++ animationClass ++ "\" />")
      "\n      " with
  | .error e => .error e
  | .ok tableRows =>
    match jsArrayFillJoin itemCount
        ("<div className=\"flex gap-3\">\n        <div className=\"h-10 w-10 rounded-full bg-muted "
         ++ animationClass
         ++ "\" />\n        <div className=\"flex-1 space-y-2\">\n          <div className=\"h-4 w-3/4 bg-muted rounded "
         ++ animationClass
         ++ "\" />\n          <div className=\"h-3 w-1/2 bg-muted rounded "
         ++ animationClass
         ++ "\" />\n        </div>\n      </div>")
        "\n      " with
    | .error e => .error e
    | .ok listItems =>
      match jsArrayFillJoin itemCount
          ("<div className=\"space-y-2\">\n        <div className=\"h-4 w-20 bg-muted rounded "
           ++ animationClass
           ++ "\" />\n        <div className=\"h-10 w-full bg-muted rounded "
           ++ animationClass
           ++ "\" />\n      </div>")
          "\n      " with
      | .error e => .error e
      | .ok formItems =>
        .ok
          [("card",
            "<div className=\"rounded-lg border p-4 space-y-3\">\n      <div className=\"h-4 w-3/4 bg-muted rounded "
            ++ animationClass
            ++ "\" />\n      <div className=\"h-3 w-1/2 bg-muted rounded "
            ++ animationClass
            ++ "\" />\n      <div className=\"h-20 bg-muted rounded "
            ++ animationClass
            ++ "\" />\n    </div>"),
           ("table",
            "<div className=\"space-y-2\">\n      <div className=\"h-10 bg-muted rounded "
            ++ animationClass
            ++ "\" />\n      "
            ++ tableRows
            ++ "\n    </div>"),
           ("list",
            "<div className=\"space-y-3\">\n      "
            ++ listItems
            ++ "\n    </div>"),
           ("profile",
            "<div className=\"flex flex-col items-center gap-4\">\n      <div className=\"h-24 w-24 rounded-full bg-muted "
            ++ animationClass
            ++ "\" />\n      <div className=\"h-5 w-32 bg-muted rounded "
            ++ animationClass
            ++ "\" />\n      <div className=\"h-3 w-48 bg-muted rounded "
            ++ animationClass
            ++ "\" />\n    </div>"),
           ("form",
            "<div className=\"space-y-4\">\n      "
            ++ formItems
            ++ "\n      <div className=\"h-10 w-24 bg-muted rounded "
            ++ animationClass
            ++ "\" />\n    </div>")]

/-- The component template of `skeleton_loader`, as a function of the
validated arguments and the already-built layout fragment. -/
def skeletonCode (args : SkeletonArgs) (animationClass layoutFragment : String) :
    String :=
  "import \x7b cn \x7d from \"@/lib/utils\";\n\ninterface "
  ++ args.componentName
  ++ "Props \x7b\n  className?: string;\n  count?: number;\n\x7d\n\nexport function "
  ++ args.componentName
  ++ "(\x7b className, count = "
  ++ toString args.itemCount
  ++ " \x7d: "
  ++ args.componentName
  ++ "Props) \x7b\n  return (\n    <div className=\x7bcn(\"w-full\", className)\x7d>\n      "
  ++ layoutFragment
  ++ "\n    </div>\n  );\n\x7d\n\n// Reusable skeleton primitives\nexport function SkeletonLine(\x7b className \x7d: \x7b className?: string \x7d) \x7b\n  return <div className=\x7bcn(\"h-4 bg-muted rounded "
  ++ animationClass
  ++ "\", className)\x7d />;\n\x7d\n\nexport function SkeletonCircle(\x7b className \x7d: \x7b className?: string \x7d) \x7b\n  return <div className=\x7bcn(\"h-10 w-10 rounded-full bg-muted "
  ++ animationClass
  ++ "\", className)\x7d />;\n\x7d\n\nexport function SkeletonBox(\x7b className \x7d: \x7b className?: string \x7d) \x7b\n  return <div className=\x7bcn(\"h-20 bg-muted rounded "
  ++ animationClass
  ++ "\", className)\x7d />;\n\x7d"

/-- Handler of `skeleton_loader_builder`.  A lookup against a missing key
would interpolate as the string `undefined` (JavaScript), hence the `getD`;
the `RangeError` of an invalid `Array` length surfaces as `Except.error`. -/
def skeletonHandler (args : SkeletonArgs) : Except String SkillResult :=
  let animationClass := if args.animated then "animate-pulse" else ""
  match skeletonLayouts args.itemCount animationClass with
  | .error e => .error e
  | .ok layouts =>
    .ok
      { success := true
        data := some (.str (skeletonCode args animationClass
          ((layouts.lookup (skeletonLayoutKey args.layout)).getD "undefined")))
        metadata := some
          [("componentName", .s args.componentName),
           ("layout", .s (skeletonLayoutKey args.layout)),
           ("animated", .b args.animated)] }

/-! ## cache_manager (src/backend/infrastructure/cache_manager.ts) -/

/-- Embedding of `z.enum(['redis', 'memory'])` -/
inductive CacheType where
  | redis : CacheType
  | memory : CacheType
deriving DecidableEq

/-- The wire string of a `CacheType` value. -/
def cacheTypeKey : CacheType → String
  | .redis => "redis"
  | .memory => "memory"

/-- Validated arguments of `CacheManagerSchema`. -/
structure CacheManagerArgs where
  cacheType : CacheType
  defaultTTL : Int
  keyPrefix : String
  generateDecorator : Bool
  generateInterceptor : Bool
deriving DecidableEq

/-- The `cache.module.ts` template of `cache_manager`. -/
def cacheModuleCode (cacheType : CacheType) (defaultTTL : Int) : String :=
  "import \x7b Module, Global \x7d from '@nestjs/common';\nimport \x7b CacheModule as NestCacheModule \x7d from '@nestjs/cache-manager';\n"
  ++ (if cacheType = .redis then "import * as redisStore from 'cache-manager-redis-store';" else "")
  ++ "\nimport \x7b CacheService \x7d from './cache.service';\n\n@Global()\n@Module(\x7b\n  imports: [\n    NestCacheModule.register(\x7b\n      "
  ++ (if cacheType = .redis then
      "store: redisStore,\n      host: process.env.REDIS_HOST || 'localhost',\n      port: parseInt(process.env.REDIS_PORT || '6379'),\n      password: process.env.REDIS_PASSWORD,"
      else "")
  ++ "\n      ttl: "
  ++ toString defaultTTL
  ++ ",\n      max: 100, // max items in cache\n    \x7d),\n  ],\n  providers: [CacheService],\n  exports: [CacheService, NestCacheModule],\n\x7d)\nexport class CacheModule \x7b\x7d\n"

/-- The `cache.service.ts` template of `cache_manager`. -/
def cacheServiceCode (keyPrefix : String) (defaultTTL : Int) : String :=
  "import \x7b Injectable, Inject \x7d from '@nestjs/common';\nimport \x7b CACHE_MANAGER \x7d from '@nestjs/cache-manager';\nimport \x7b Cache \x7d from 'cache-manager';\n\n@Injectable()\nexport class CacheService \x7b\n  private readonly prefix = '"
  ++ keyPrefix
  ++ "';\n\n  constructor(@Inject(CACHE_MANAGER) private cacheManager: Cache) \x7b\x7d\n\n  private buildKey(key: string): string \x7b\n    return `$\x7bthis.prefix\x7d:$\x7bkey\x7d`;\n  \x7d\n\n  async get<T>(key: string): Promise<T | undefined> \x7b\n    return this.cacheManager.get<T>(this.buildKey(key));\n  \x7d\n\n  async set<T>(key: string, value: T, ttl?: number): Promise<void> \x7b\n    await this.cacheManager.set(this.buildKey(key), value, ttl || "
  ++ toString defaultTTL
  ++ ");\n  \x7d\n\n  async del(key: string): Promise<void> \x7b\n    await this.cacheManager.del(this.buildKey(key));\n  \x7d\n\n  async reset(): Promise<void> \x7b\n    await this.cacheManager.reset();\n  \x7d\n\n  /**\n   * Cache-aside pattern: Get from cache or fetch and cache\n   */\n  async getOrSet<T>(\n    key: string,\n    fetcher: () => Promise<T>,\n    ttl?: number,\n  ): Promise<T> \x7b\n    const cached = await this.get<T>(key);\n    if (cached !== undefined) \x7b\n      return cached;\n    \x7d\n\n    const fresh = await fetcher();\n    await this.set(key, fresh, ttl);\n    return fresh;\n  \x7d\n\n  /**\n   * Invalidate multiple keys by pattern (useful for entity updates)\n   */\n  async invalidateByPattern(pattern: string): Promise<void> \x7b\n    // Note: Pattern invalidation requires Redis with SCAN command\n    // For memory cache, you'd need to track keys manually\n    console.log(`Invalidating keys matching: $\x7bthis.prefix\x7d:$\x7bpattern\x7d`);\n  \x7d\n\x7d\n"

/-- The `cacheable.decorator.ts` template of `cache_manager`. -/
def cacheDecoratorCode : String :=
  "import \x7b SetMetadata \x7d from '@nestjs/common';\n\nexport const CACHE_KEY_METADATA = 'cache:key';\nexport const CACHE_TTL_METADATA = 'cache:ttl';\n\nexport interface CacheableOptions \x7b\n  key?: string;\n  ttl?: number;\n\x7d\n\n/**\n * @Cacheable decorator for automatic caching\n * Use with CacheInterceptor\n * \n * @example\n * @Cacheable(\x7b key: 'users:all', ttl: 300 \x7d)\n * async findAll() \x7b ... \x7d\n */\nexport const Cacheable = (options: CacheableOptions = \x7b\x7d) => \x7b\n  return (target: any, propertyKey: string, descriptor: PropertyDescriptor) => \x7b\n    SetMetadata(CACHE_KEY_METADATA, options.key || `$\x7btarget.constructor.name\x7d:$\x7bpropertyKey\x7d`)(target, propertyKey, descriptor);\n    if (options.ttl) \x7b\n      SetMetadata(CACHE_TTL_METADATA, options.ttl)(target, propertyKey, descriptor);\n    \x7d\n    return descriptor;\n  \x7d;\n\x7d;\n"

/-- The `cache.interceptor.ts` template of `cache_manager`. -/
def cacheInterceptorCode : String :=
  "import \x7b\n  Injectable,\n  NestInterceptor,\n  ExecutionContext,\n  CallHandler,\n\x7d from '@nestjs/common';\nimport \x7b Observable, of \x7d from 'rxjs';\nimport \x7b tap \x7d from 'rxjs/operators';\nimport \x7b Reflector \x7d from '@nestjs/core';\nimport \x7b CacheService \x7d from './cache.service';\nimport \x7b CACHE_KEY_METADATA, CACHE_TTL_METADATA \x7d from './cacheable.decorator';\n\n@Injectable()\nexport class CustomCacheInterceptor implements NestInterceptor \x7b\n  constructor(\n    private cacheService: CacheService,\n    private reflector: Reflector,\n  ) \x7b\x7d\n\n  async intercept(\n    context: ExecutionContext,\n    next: CallHandler,\n  ): Promise<Observable<any>> \x7b\n    const cacheKey = this.reflector.get<string>(\n      CACHE_KEY_METADATA,\n      context.getHandler(),\n    );\n\n    if (!cacheKey) \x7b\n      return next.handle();\n    \x7d\n\n    const ttl = this.reflector.get<number>(CACHE_TTL_METADATA, context.getHandler());\n    const request = context.switchToHttp().getRequest();\n    \n    // Build dynamic key with query params if needed\n    const dynamicKey = request.query.id \n      ? `$\x7bcacheKey\x7d:$\x7brequest.query.id\x7d`\n      : cacheKey;\n\n    const cachedResponse = await this.cacheService.get(dynamicKey);\n    if (cachedResponse) \x7b\n      return of(cachedResponse);\n    \x7d\n\n    return next.handle().pipe(\n      tap(async (response) => \x7b\n        await this.cacheService.set(dynamicKey, response, ttl);\n      \x7d),\n    );\n  \x7d\n\x7d\n"

/-- The `cache.example.ts` template of `cache_manager`. -/
def cacheExampleCode : String :=
  "// Example usage in a service or controller\nimport \x7b Cacheable \x7d from './cacheable.decorator';\nimport \x7b UseInterceptors \x7d from '@nestjs/common';\nimport \x7b CustomCacheInterceptor \x7d from './cache.interceptor';\n\n@Controller('products')\n@UseInterceptors(CustomCacheInterceptor)\nexport class ProductsController \x7b\n  \n  @Get()\n  @Cacheable(\x7b key: 'products:all', ttl: 300 \x7d) // 5 minutes\n  findAll() \x7b\n    return this.productsService.findAll();\n  \x7d\n\n  @Get(':id')\n  @Cacheable(\x7b key: 'products:single', ttl: 600 \x7d) // 10 minutes\n  findOne(@Param('id') id: string) \x7b\n    return this.productsService.findOne(id);\n  \x7d\n\n  @Post()\n  async create(@Body() dto: CreateProductDto) \x7b\n    const product = await this.productsService.create(dto);\n    // Invalidate list cache\n    await this.cacheService.del('products:all');\n    return product;\n  \x7d\n\x7d\n"

/-- The files record built by the `cache_manager` handler, in insertion
order (module, service, optional decorator, optional interceptor,
example). -/
def cacheFiles (args : CacheManagerArgs) : List (String × String) :=
  [("cache.module.ts", cacheModuleCode args.cacheType args.defaultTTL),
   ("cache.service.ts", cacheServiceCode args.keyPrefix args.defaultTTL)]
  ++ (if args.generateDecorator then [("cacheable.decorator.ts", cacheDecoratorCode)] else [])
  ++ (if args.generateInterceptor then [("cache.interceptor.ts", cacheInterceptorCode)] else [])
  ++ [("cache.example.ts", cacheExampleCode)]

/-- Handler of `cache_manager`. -/
def cacheManagerHandler (args : CacheManagerArgs) : SkillResult :=
  { success := true
    data := some (.files (cacheFiles args))
    metadata := some
      [("cacheType", .s (cacheTypeKey args.cacheType)),
       ("defaultTTL", .i args.defaultTTL),
       ("generatedFiles", .list ((cacheFiles args).map fun p => .s p.1))] }

/-! ## sitemap_generator (src/frontend/routing/sitemap_generator.ts) -/

/-- Validated arguments of `SitemapGeneratorSchema`. -/
structure SitemapArgs where
  baseUrl : String
  dynamicRoutes : List String
deriving DecidableEq

/-- Embedding of `baseUrl.replace(/\/$/, '')`: drop one trailing slash, if present. -/
def stripTrailingSlash (s : String) : String :=
  if s.endsWith "/" then s.dropRight 1 else s

/-- The `app/sitemap.ts` template of `sitemap_generator`. -/
def sitemapCode (baseUrl : String) (dynamicRoutes : List String) : String :=
  "import \x7b MetadataRoute \x7d from 'next';\n\nexport default function sitemap(): MetadataRoute.Sitemap \x7b\n  const baseUrl = '"
  ++ stripTrailingSlash baseUrl
  ++ "';\n\n  // Static routes\n  const routes = [\n    '',\n    '/about',\n    '/contact',\n    // Add more static routes here\n  ].map((route) => (\x7b\n    url: `$\x7bbaseUrl\x7d$\x7broute\x7d`,\n    lastModified: new Date(),\n    changeFrequency: 'daily' as const,\n    priority: route === '' ? 1 : 0.8,\n  \x7d));\n\n  // Dynamic routes placeholder - in a real app, you might fetch ids from a DB\n  // This demonstrates how to structure the logic\n  const dynamicEntries = "
  ++ jsonStringifyArr dynamicRoutes
  ++ ".flatMap(prefix => \x7b\n     // Example: return fetch(`$\x7bbaseUrl\x7d/api$\x7bprefix\x7d`).then(res => res.json())...\n     // For now, we return a generic entry\n     return [\n       \x7b\n         url: `$\x7bbaseUrl\x7d$\x7bprefix\x7d`,\n         lastModified: new Date(),\n         changeFrequency: 'weekly' as const,\n         priority: 0.5,\n       \x7d\n     ];\n  \x7d);\n\n  return [...routes, ...dynamicEntries];\n\x7d\n"

/-- The `app/robots.ts` template of `sitemap_generator`. -/
def robotsCode (baseUrl : String) : String :=
  "import \x7b MetadataRoute \x7d from 'next';\n\nexport default function robots(): MetadataRoute.Robots \x7b\n  const baseUrl = '"
  ++ stripTrailingSlash baseUrl
  ++ "';\n  \n  return \x7b\n    rules: \x7b\n      userAgent: '*',\n      allow: '/',\n      disallow: ['/private/', '/admin/'],\n    \x7d,\n    sitemap: `$\x7bbaseUrl\x7d/sitemap.xml`,\n  \x7d;\n\x7d\n"

/-- Handler of `sitemap_generator`. -/
def sitemapGeneratorHandler (args : SitemapArgs) : SkillResult :=
  { success := true
    data := some (.files
      [("app/sitemap.ts", sitemapCode args.baseUrl args.dynamicRoutes),
       ("app/robots.ts", robotsCode args.baseUrl)])
    metadata := some
      [("baseUrl", .s args.baseUrl),
       ("sitemapType", .s "dynamic")] }

/-! ## Skeleton-loader schema (needed for the schema-validity of the
negative-count inputs) -/

/-- Validated arguments of `analyzeHookLogicSchema`. -/
structure AnalyzeHookArgs where
  code : String
  fileName : String
  strict : Bool
deriving DecidableEq

/-- The regex whitespace class `\s` (ASCII part), as used by the two
patterns of the handler. -/
def jsWs (c : Char) : Bool :=
  c = ' ' || c = '\t' || c = '\n' || c = '\r' || c.toNat = 11 || c.toNat = 12

/-- The regex word class `\w` (`[A-Za-z0-9_]`), deciding the `\b`
boundary. -/
def isWordChar (c : Char) : Bool :=
  ('a' ≤ c && c ≤ 'z') || ('A' ≤ c && c ≤ 'Z') || ('0' ≤ c && c ≤ '9')
  || c = '_'

/-- Consume a literal, or fail. -/
def dropLit (lit l : List Char) : Option (List Char) :=
  if lit.isPrefixOf l then some (l.drop lit.length) else none

/-- Consume one expected character, or fail. -/
def dropChar (c : Char) (l : List Char) : Option (List Char) :=
  match l with
  | x :: rest => if x = c then some rest else none
  | [] => none

/-- Consume `\s+`: at least one whitespace character, greedily. -/
def munchWs1 (l : List Char) : Option (List Char) :=
  match l with
  | c :: rest => if jsWs c then some (rest.dropWhile jsWs) else none
  | [] => none

/-- The opening brace character (of the `\x7b` literal in the dependency
pattern). -/
def lbrace : Char := Char.ofNat 123

/-- The closing brace character (of the `[^\x7d]*\x7d` part of the
dependency pattern). -/
def rbrace : Char := Char.ofNat 125

/-- Anchored match of `export\s+(?:const|function)\s+(use[A-Z][a-zA-Z0-9]*)`
at the head of `l`, returning the first capture group. -/
def hookNameAt (l : List Char) : Option String := do
  let r1 ← dropLit "export".data l
  let r2 ← munchWs1 r1
  let r3 ←
    match dropLit "const".data r2 with
    | some r => some r
    | none => dropLit "function".data r2
  let r4 ← munchWs1 r3
  let r5 ← dropLit "use".data r4
  match r5 with
  | c :: r6 =>
    if 'A' ≤ c ∧ c ≤ 'Z' then
      some ⟨'u' :: 's' :: 'e' :: c :: r6.takeWhile (fun d =>
        ('a' ≤ d && d ≤ 'z') || ('A' ≤ d && d ≤ 'Z') || ('0' ≤ d && d ≤ '9'))⟩
    else none
  | [] => none

/-- `code.match(/export\s+(?:const|function)\s+(use[A-Z][a-zA-Z0-9]*)/)`:
the leftmost match wins, like a non-global JavaScript match. -/
def findHookName : List Char → Option String
  | [] => none
  | c :: rest =>
    match hookNameAt (c :: rest) with
    | some h => some h
    | none => findHookName rest

/-- Anchored match (after the `\b`) of the dependency-array pattern
`(useEffect|useCallback|useMemo)\s*\(\s*\(\s*\)\s*=>\s*\x7b[^\x7d]*\x7d\s*\)`. -/
def effectsAt (l : List Char) : Bool :=
  (do
    let r1 ←
      match dropLit "useEffect".data l with
      | some r => some r
      | none =>
        match dropLit "useCallback".data l with
        | some r => some r
        | none => dropLit "useMemo".data l
    let r2 ← dropChar '(' (r1.dropWhile jsWs)
    let r3 ← dropChar '(' (r2.dropWhile jsWs)
    let r4 ← dropChar ')' (r3.dropWhile jsWs)
    let r5 ← dropLit "=>".data (r4.dropWhile jsWs)
    let r6 ← dropChar lbrace (r5.dropWhile jsWs)
    let r7 ← dropChar rbrace (r6.dropWhile (fun d => d ≠ rbrace))
    let _ ← dropChar ')' (r7.dropWhile jsWs)
    some () : Option Unit).isSome

/-- Scan for the dependency-array pattern with its leading `\b`: a match may
start only where the previous character (if any) is a non-word character. -/
def effectsScan : Option Char → List Char → Bool
  | _, [] => false
  | prev, c :: rest =>
    ((match prev with | none => true | some p => !isWordChar p)
      && isWordChar c && effectsAt (c :: rest))
    || effectsScan (some c) rest

/-- `regexEffects.test(code)` (the regex object is created afresh on every
invocation, so the `g` flag never carries state across calls). -/
def regexEffectsTest (code : String) : Bool := effectsScan none code.data

/-- The issues accumulated by the `analyze_hook_logic` handler, in push
order: naming-convention check, dependency-array check, return-value
check. -/
def analyzeHookIssues (code fileName : String) : List String :=
  (if !strContains fileName "use" && (findHookName code.data).isNone then
    ["Could not detect a valid hook definition starting with \"use\" exported from this file."]
   else [])
  ++ (if regexEffectsTest code then
    ["Found useEffect/useCallback/useMemo without a dependency array. This can cause infinite loops or stale closures."]
   else [])
  ++ (if !strContains code "return" then
    ["Hook does not seem to return any value or controls. Ensure it returns the necessary state or handlers."]
   else [])

/-- The suggestions accumulated by the handler (the heavy-computation
heuristic). -/
def analyzeHookSuggestions (code : String) : List String :=
  if strContains code ".filter(" && strContains code ".map("
      && !strContains code "useMemo" then
    ["Chained array operations (.filter.map) found. Consider wrapping heavy computations in useMemo()."]
  else []

/-- `code.split('\n').length` -/
def jsSplitLinesCount (s : String) : Nat :=
  (s.data.filter (fun c => c = '\n')).length + 1

/-- Handler of `analyze_hook_logic`: `success` is `issues.length === 0`,
`data` is the structured report. -/
def analyzeHookLogicHandler (args : AnalyzeHookArgs) : SkillResult :=
  let hookName := findHookName args.code.data
  let issues := analyzeHookIssues args.code args.fileName
  let suggestions := analyzeHookSuggestions args.code
  { success := issues.length == 0
    data := some (.obj
      [("hookName", match hookName with | some h => .s h | none => .nullv),
       ("validConvention", .b hookName.isSome),
       ("issues", .list (issues.map MetaVal.s)),
       ("suggestions", .list (suggestions.map MetaVal.s))])
    metadata := some [("analyzedLines", .i (jsSplitLinesCount args.code))] }

/-- Embedding of `analyzeHookLogicSchema.parse`: `code` and `fileName` are
required strings; `strict` defaults to `true`. -/
def analyzeHookLogicParse (j : Json) : Option AnalyzeHookArgs :=
  match j with
  | .obj fields => do
    let code ← parseStr fields "code"
    let fileName ← parseStr fields "fileName"
    let strict ← parseBoolD fields "strict" true
    pure ⟨code, fileName, strict⟩
  | _ => none

/-! ## The corpus of embedded skills -/

/-- Embedding of `role_guard_generator` packaged as a corpus skill (pure handler). -/
def roleGuardSkill : Skill :=
  ⟨"role_guard_generator", RoleGuardArgs, fun _ a => .ok (roleGuardHandler a)⟩

/-- Embedding of `access_list_manager` packaged as a corpus skill (pure handler). -/
def accessListSkill : Skill :=
  ⟨"access_list_manager", AccessListArgs, fun _ a => .ok (accessListHandler a)⟩

/-- Embedding of `migration_expert` packaged as a corpus skill (reads the clock). -/
def migrationSkill : Skill :=
  ⟨"migration_expert", MigrationArgs, fun e a => .ok (migrationHandler e a)⟩

/-- Embedding of `apply_shadcn_style` packaged as a corpus skill (pure handler). -/
def shadcnSkill : Skill :=
  ⟨"apply_shadcn_style", ShadcnArgs, fun _ a => .ok (shadcnHandler a)⟩

/-- Embedding of `table_generator` packaged as a corpus skill (pure handler). -/
def tableGeneratorSkill : Skill :=
  ⟨"table_generator", TableGeneratorArgs, fun _ a => .ok (tableGeneratorHandler a)⟩

/-- Embedding of `skeleton_loader_builder` packaged as a corpus skill (its handler can
raise a `RangeError`). -/
def skeletonLoaderSkill : Skill :=
  ⟨"skeleton_loader_builder", SkeletonArgs, fun _ a => skeletonHandler a⟩

/-- Embedding of `cache_manager` packaged as a corpus skill (pure handler). -/
def cacheManagerSkill : Skill :=
  ⟨"cache_manager", CacheManagerArgs, fun _ a => .ok (cacheManagerHandler a)⟩

/-- Embedding of `sitemap_generator` packaged as a corpus skill (pure handler). -/
def sitemapGeneratorSkill : Skill :=
  ⟨"sitemap_generator", SitemapArgs, fun _ a => .ok (sitemapGeneratorHandler a)⟩

/-- Embedding of `analyze_hook_logic` packaged as a corpus skill (pure
handler with a computed success flag). -/
def analyzeHookLogicSkill : Skill :=
  ⟨"analyze_hook_logic", AnalyzeHookArgs, fun _ a => .ok (analyzeHookLogicHandler a)⟩

/-- The corpus of fully embedded skills: every skill cited by the claims,
plus the one skill whose handler can report failure. -/
def skills : List Skill :=
  [roleGuardSkill, accessListSkill, migrationSkill, shadcnSkill,
   tableGeneratorSkill, skeletonLoaderSkill, cacheManagerSkill,
   sitemapGeneratorSkill, analyzeHookLogicSkill]

/-! ## The frontend registry (frontend index file, src/unnamed/part_004)

For the registry-aggregation claim only the identity of each definition
(its `name` and its `handler` function) matters, so the nineteen frontend
`SkillDefinition` constants are embedded as lightweight references whose
handler field is the identity of the module's handler function. -/

/-- Identities of the handler functions exported by the frontend skill
modules. -/
inductive FrontendHandlerId where
  | analyzeHookLogic | responsive | shadcn | componentOptimizer
  | formFactory | uiPolish | dataFetching | feedbackSystem
  | authGuard | aiCopywriter | routingMaster | searchParamsManager
  | sitemapGenerator | authSessionManager | tableGenerator
  | toastNotification | skeletonLoader | themeSwitcher | infiniteScroll
deriving DecidableEq

/-- A frontend `SkillDefinition` reduced to the data the registry uses. -/
structure SkillRef where
  name : String
  handler : FrontendHandlerId
deriving DecidableEq

/-- Embedding of `analyzeHookLogic` (src/frontend/logic/analyze_hook_logic.ts). -/
def analyzeHookLogic : SkillRef := ⟨"analyze_hook_logic", .analyzeHookLogic⟩

/-- Embedding of `responsiveSkillDefinition` (src/frontend/ui/responsive_ui.ts). -/
def responsiveSkillDefinition : SkillRef := ⟨"generate_responsive_layout", .responsive⟩

/-- Embedding of `shadcnSkillDefinition` (src/frontend/ui/shadcn_expert.ts). -/
def shadcnSkillDefinition : SkillRef := ⟨"apply_shadcn_style", .shadcn⟩

/-- Embedding of `componentOptimizerSkillDefinition`
(src/frontend/infrastructure/component_optimizer.ts). -/
def componentOptimizerSkillDefinition : SkillRef := ⟨"component_optimizer", .componentOptimizer⟩

/-- Embedding of `formFactorySkillDefinition` (src/frontend/logic/form_factory.ts). -/
def formFactorySkillDefinition : SkillRef := ⟨"form_factory", .formFactory⟩

/-- Embedding of `uiPolishSkillDefinition` (src/frontend/ui/ui_polish.ts). -/
def uiPolishSkillDefinition : SkillRef := ⟨"ui_polish", .uiPolish⟩

/-- Embedding of `dataFetchingSkillDefinition` (src/frontend/logic/data_fetching.ts). -/
def dataFetchingSkillDefinition : SkillRef := ⟨"generate_react_query_hook", .dataFetching⟩

/-- Embedding of `feedbackSystemSkillDefinition` (src/frontend/ui/feedback_system.ts). -/
def feedbackSystemSkillDefinition : SkillRef := ⟨"generate_feedback_system", .feedbackSystem⟩

/-- Embedding of `authGuardSkillDefinition` (src/frontend/infrastructure/auth_guard.ts). -/
def authGuardSkillDefinition : SkillRef := ⟨"generate_auth_guard", .authGuard⟩

/-- Embedding of `aiCopywriterSkillDefinition` (src/frontend/ui/ai_copywriter_ui.ts). -/
def aiCopywriterSkillDefinition : SkillRef := ⟨"ai_copywriter", .aiCopywriter⟩

/-- Embedding of `routingMasterSkillDefinition` (src/frontend/routing/routing_master.ts). -/
def routingMasterSkillDefinition : SkillRef := ⟨"routing_master", .routingMaster⟩

/-- Embedding of `searchParamsManagerSkillDefinition`
(src/frontend/routing/search_params_manager.ts). -/
def searchParamsManagerSkillDefinition : SkillRef := ⟨"search_params_manager", .searchParamsManager⟩

/-- Embedding of `sitemapGeneratorSkillDefinition`
(src/frontend/routing/sitemap_generator.ts). -/
def sitemapGeneratorSkillDefinition : SkillRef := ⟨"sitemap_generator", .sitemapGenerator⟩

/-- Embedding of `authSessionManagerSkillDefinition`
(src/frontend/infrastructure/auth_session_manager.ts). -/
def authSessionManagerSkillDefinition : SkillRef := ⟨"generate_auth_session_manager", .authSessionManager⟩

/-- Embedding of `tableGeneratorSkillDefinition` (src/frontend/ui/table_generator.ts). -/
def tableGeneratorSkillDefinition : SkillRef := ⟨"table_generator", .tableGenerator⟩

/-- Embedding of `toastNotificationSkillDefinition` (src/frontend/ui/toast_notification.ts). -/
def toastNotificationSkillDefinition : SkillRef := ⟨"toast_notification_system", .toastNotification⟩

/-- Embedding of `skeletonLoaderSkillDefinition` (src/frontend/ui/skeleton_loader.ts). -/
def skeletonLoaderSkillDefinition : SkillRef := ⟨"skeleton_loader_builder", .skeletonLoader⟩

/-- Embedding of `themeSwitcherSkillDefinition`
(src/frontend/infrastructure/theme_switcher.ts). -/
def themeSwitcherSkillDefinition : SkillRef := ⟨"theme_switcher", .themeSwitcher⟩

/-- Embedding of `infiniteScrollSkillDefinition` (src/frontend/logic/infinite_scroll.ts). -/
def infiniteScrollSkillDefinition : SkillRef := ⟨"infinite_scroll_builder", .infiniteScroll⟩

/-- The aggregate frontend registry object. -/
structure FrontendRegistry where
  definitions : List SkillRef
  handlers : List (String × FrontendHandlerId)

/-- The `frontendSkills` object of the frontend index file, transcribed
entry by entry: fourteen definitions, and a handlers map whose first key is
computed from `analyzeHookLogic.name`, whose second and third keys are the
literals `generate_responsive_layout` and `apply_shadcn_style` (bound to
`responsiveHandler` and `shadcnHandler`), and whose remaining keys are
computed from each definition's `name`.  The five definitions imported from
`table_generator`, `toast_notification`, `skeleton_loader`,
`theme_switcher` and `infinite_scroll` appear in no entry. -/
def frontendSkills : FrontendRegistry :=
  { definitions :=
      [analyzeHookLogic,
       responsiveSkillDefinition,
       shadcnSkillDefinition,
       componentOptimizerSkillDefinition,
       formFactorySkillDefinition,
       uiPolishSkillDefinition,
       dataFetchingSkillDefinition,
       feedbackSystemSkillDefinition,
       authGuardSkillDefinition,
       aiCopywriterSkillDefinition,
       routingMasterSkillDefinition,
       searchParamsManagerSkillDefinition,
       sitemapGeneratorSkillDefinition,
       authSessionManagerSkillDefinition]
    handlers :=
      [(analyzeHookLogic.name, analyzeHookLogic.handler),
       ("generate_responsive_layout", .responsive),
       ("apply_shadcn_style", .shadcn),
       (componentOptimizerSkillDefinition.name, componentOptimizerSkillDefinition.handler),
       (formFactorySkillDefinition.name, formFactorySkillDefinition.handler),
       (uiPolishSkillDefinition.name, uiPolishSkillDefinition.handler),
       (dataFetchingSkillDefinition.name, dataFetchingSkillDefinition.handler),
       (feedbackSystemSkillDefinition.name, feedbackSystemSkillDefinition.handler),
       (authGuardSkillDefinition.name, authGuardSkillDefinition.handler),
       (aiCopywriterSkillDefinition.name, aiCopywriterSkillDefinition.handler),
       (routingMasterSkillDefinition.name, routingMasterSkillDefinition.handler),
       (searchParamsManagerSkillDefinition.name, searchParamsManagerSkillDefinition.handler),
       (sitemapGeneratorSkillDefinition.name, sitemapGeneratorSkillDefinition.handler),
       (authSessionManagerSkillDefinition.name, authSessionManagerSkillDefinition.handler)] }

/-! ## String lemmas (non-emptiness and substring containment) -/

/-- A string is non-empty. -/
def strNE (s : String) : Prop := 0 < s.length

instance (s : String) : Decidable (strNE s) := by
  unfold strNE
  infer_instance

/-- Non-emptiness is preserved by appending on the right. -/
theorem strNE_append_left (a b : String) (h : strNE a) : strNE (a ++ b) := by
  have := String.length_append a b
  unfold strNE at h ⊢
  omega

/-- Predicate: `pat` occurs as a contiguous substring of `s`. -/
def strHasInfix (pat s : String) : Prop := pat.data <:+: s.data

/-- Every string occurs in itself. -/
theorem strHasInfix_refl (p : String) : strHasInfix p p := List.infix_refl _

/-- An occurrence in `a` is an occurrence in `a ++ b`. -/
theorem strHasInfix_left {p a : String} (h : strHasInfix p a) (b : String) :
    strHasInfix p (a ++ b) := by
  unfold strHasInfix at h ⊢
  rw [String.data_append]
  rcases h with ⟨s, t, ht⟩
  exact ⟨s, t ++ b.data, by rw [← ht]; simp⟩

/-- An occurrence in `b` is an occurrence in `a ++ b`. -/
theorem strHasInfix_right {p b : String} (a : String) (h : strHasInfix p b) :
    strHasInfix p (a ++ b) := by
  unfold strHasInfix at h ⊢
  rw [String.data_append]
  rcases h with ⟨s, t, ht⟩
  exact ⟨a.data ++ s, t, by rw [← ht]; simp⟩

theorem charsPrefix_iff (p l : List Char) : charsPrefix p l = true ↔ p <+: l := by
  induction p generalizing l with
  | nil => simp [charsPrefix]
  | cons a as ih =>
    cases l with
    | nil => simp [charsPrefix]
    | cons b bs =>
      simp only [charsPrefix, Bool.and_eq_true, decide_eq_true_eq, ih,
        List.cons_prefix_cons]

theorem charsInfix_iff (p l : List Char) : charsInfix p l = true ↔ p <:+: l := by
  induction l with
  | nil => simp [charsInfix, List.isEmpty_iff]
  | cons c rest ih =>
    simp only [charsInfix, Bool.or_eq_true, charsPrefix_iff, ih,
      List.infix_cons_iff]

/-- The boolean test agrees with the containment predicate. -/
theorem strContains_iff (s pat : String) :
    strContains s pat = true ↔ strHasInfix pat s :=
  charsInfix_iff pat.data s.data

/-! ## Non-emptiness of the generated sources -/

/-- A string whose character list starts with a cons is non-empty. -/
theorem strNE_of_cons {a : String} {c : Char} {l : List Char}
    (h : a.data = c :: l) : strNE a := by
  have hl : a.length = a.data.length := rfl
  unfold strNE
  rw [hl, h]
  simp

theorem strNE_tableCodePre (args : TableGeneratorArgs) :
    strNE (tableCodePre args) := by
  unfold tableCodePre
  repeat apply strNE_append_left
  exact strNE_of_cons rfl

theorem strNE_tableGeneratorCode (args : TableGeneratorArgs) :
    strNE (tableGeneratorCode args) := by
  unfold tableGeneratorCode
  apply strNE_append_left
  apply strNE_append_left
  apply strNE_append_left
  apply strNE_append_left
  exact strNE_tableCodePre args

/-- An ips array containing a string that fails the IPv4 regex never
parses. -/
theorem parseIpList_none (xs : List Json) (ip : String)
    (hmem : Json.str ip ∈ xs) (hbad : isValidIPv4 ip = false) :
    parseIpList xs = none := by
  induction xs with
  | nil => cases hmem
  | cons x rest ih =>
    rcases List.mem_cons.mp hmem with heq | hmem'
    · rw [← heq]
      simp [parseIpList, hbad]
    · cases x with
      | str s =>
        by_cases hv : isValidIPv4 s = true
        · simp [parseIpList, hv, ih hmem']
        · simp [parseIpList, hv]
      | null => rfl
      | bool b => rfl
      | num n => rfl
      | arr es => rfl
      | obj fs => rfl

/-! ## Claim theorems -/

/-- C1: the frontend registry is claimed to aggregate every frontend
`SkillDefinition` (including `table_generator`, `toast_notification`,
`skeleton_loader`, `theme_switcher` and `infinite_scroll`) into its
`definitions` list and its `handlers` map.  Evaluating the embedded
`frontendSkills` object shows the five newer definitions are absent from
both structures, while every definition that is present is correctly keyed
by its name. -/
theorem frontendSkills_registry_omits_new_skills :
    (tableGeneratorSkillDefinition ∉ frontendSkills.definitions ∧
     toastNotificationSkillDefinition ∉ frontendSkills.definitions ∧
     skeletonLoaderSkillDefinition ∉ frontendSkills.definitions ∧
     themeSwitcherSkillDefinition ∉ frontendSkills.definitions ∧
     infiniteScrollSkillDefinition ∉ frontendSkills.definitions) ∧
    ((frontendSkills.handlers.lookup "table_generator").isNone = true ∧
     (frontendSkills.handlers.lookup "toast_notification_system").isNone = true ∧
     (frontendSkills.handlers.lookup "skeleton_loader_builder").isNone = true ∧
     (frontendSkills.handlers.lookup "theme_switcher").isNone = true ∧
     (frontendSkills.handlers.lookup "infinite_scroll_builder").isNone = true) ∧
    (∀ d ∈ frontendSkills.definitions,
      frontendSkills.handlers.lookup d.name = some d.handler) := by
  decide

/-- C4: invoking `role_guard_generator` with
`{rolesEnumName: "UserRole", defaultRoles: ["admin", "user"]}` succeeds and
its `roles.enum.ts` output is exactly an enum named `UserRole` with the two
members `ADMIN = 'admin'` and `USER = 'user'`. -/
theorem role_guard_enum_example :
    ∃ r, roleGuardInvoke (.obj [("rolesEnumName", .str "UserRole"),
        ("defaultRoles", .arr [.str "admin", .str "user"])]) = some r ∧
      r.success = true ∧
      ∃ fs, r.data = some (.files fs) ∧
        fs.lookup "roles.enum.ts" =
          some "export enum UserRole \x7b\n  ADMIN = 'admin',\n  USER = 'user',\n\x7d" := by
  exact ⟨roleGuardHandler ⟨"UserRole", ["admin", "user"], "JwtPayload"⟩,
    rfl, rfl, _, rfl, rfl⟩

/-- C5: `TableGeneratorSchema` accepts an empty `columns` array, and the
invocation returns `success = true` with a non-empty, column-free output
string (no `accessorKey` entry is generated), settling the zero-columns
boundary in favor of success. -/
theorem table_generator_zero_columns :
    tableGeneratorParse (.obj [("tableName", .str "UsersTable"),
        ("columns", .arr [])]) = some ⟨"UsersTable", [], true, true, true⟩ ∧
    ∃ r, tableGeneratorInvoke (.obj [("tableName", .str "UsersTable"),
        ("columns", .arr [])]) = some r ∧ r.success = true ∧
      ∃ code, r.data = some (.str code) ∧ strNE code ∧
        strContains code "accessorKey" = false := by
  refine ⟨rfl, tableGeneratorHandler ⟨"UsersTable", [], true, true, true⟩,
    rfl, rfl, tableGeneratorCode ⟨"UsersTable", [], true, true, true⟩, rfl,
    strNE_tableGeneratorCode _, ?_⟩
  decide

/-- C9: validating the empty input object against
`RoleGuardGeneratorSchema` succeeds with all declared defaults, and the
resulting invocation is identical to invoking the handler on the fully
explicit input `{rolesEnumName: 'UserRole', defaultRoles:
['admin','user'], jwtPayloadType: 'JwtPayload'}`. -/
theorem role_guard_defaults_equiv :
    roleGuardParse (.obj []) =
      some ⟨"UserRole", ["admin", "user"], "JwtPayload"⟩ ∧
    roleGuardInvoke (.obj []) =
      some (roleGuardHandler ⟨"UserRole", ["admin", "user"], "JwtPayload"⟩) :=
  ⟨rfl, rfl⟩

/-- C3: every embedded handler other than `migration_expert` is a pure
function of its validated input — two invocations in different environments
return byte-identical results — and the result of `migration_expert` is a
function of its input name and the clock value alone (so its two runs
coincide once the `Date.now()` timestamp is equated, the claim's sanctioned
exclusion). -/
theorem skills_deterministic :
    (∀ s ∈ skills, s.name ≠ "migration_expert" →
      ∀ (input : s.Input) (e e' : Env),
        s.handler e input = s.handler e' input) ∧
    (∀ (e : Env) (args : MigrationArgs),
      migrationSkill.handler e args =
        .ok (mkMigrationResult args.migrationName e.now)) := by
  constructor
  · intro s hs hname input e e'
    simp only [skills, List.mem_cons, List.not_mem_nil, or_false] at hs
    rcases hs with rfl | rfl | rfl | rfl | rfl | rfl | rfl | rfl | rfl
    · rfl
    · rfl
    · exact absurd rfl hname
    · rfl
    · rfl
    · rfl
    · rfl
    · rfl
    · rfl
  · intro e args
    rfl

/-- C3 witness. -/
theorem skills_deterministic_witness :
    tableGeneratorSkill.handler ⟨0⟩ ⟨"T", [], true, true, true⟩ =
      tableGeneratorSkill.handler ⟨7⟩ ⟨"T", [], true, true, true⟩ :=
  skills_deterministic.1 tableGeneratorSkill
    (List.Mem.tail _ (List.Mem.tail _ (List.Mem.tail _ (List.Mem.tail _
      (List.Mem.head _)))))
    (by decide) ⟨"T", [], true, true, true⟩ ⟨0⟩ ⟨7⟩

/-- C10 counterexample: `{code: "", fileName: "a"}` satisfies
`analyzeHookLogicSchema`, yet the `analyze_hook_logic` handler returns a
failure result (`success = false`: the empty code triggers the naming and
return-value issues), refuting the claim that `success = true` for every
skill and schema-valid input.  Even here the `error` field stays absent. -/
theorem analyze_hook_logic_failure_result :
    analyzeHookLogicParse (.obj [("code", .str ""), ("fileName", .str "a")]) =
      some ⟨"", "a", true⟩ ∧
    (analyzeHookLogicHandler ⟨"", "a", true⟩).success = false ∧
    (analyzeHookLogicHandler ⟨"", "a", true⟩).error = none :=
  ⟨rfl, rfl, rfl⟩

/-- C10 (amended): whenever an embedded handler returns a `SkillResult`,
that result has a present `data` field and an absent `error` field — the
`error` field is populated by no handler in the corpus — and every handler
except `analyze_hook_logic` always returns `success = true`;
`analyze_hook_logic` returns `success = true` exactly when its analysis
finds no issues, so it alone can produce a failure result (see the
counterexample). -/
theorem skills_never_populate_error :
    (∀ s ∈ skills, ∀ (e : Env) (input : s.Input) (r : SkillResult),
      s.handler e input = .ok r →
      r.data.isSome = true ∧ r.error = none ∧
        (s.name ≠ "analyze_hook_logic" → r.success = true)) ∧
    (∀ (e : Env) (args : AnalyzeHookArgs) (r : SkillResult),
      analyzeHookLogicSkill.handler e args = .ok r →
      (r.success = true ↔
        analyzeHookIssues args.code args.fileName = [])) := by
  constructor
  · intro s hs e input r h
    simp only [skills, List.mem_cons, List.not_mem_nil, or_false] at hs
    rcases hs with rfl | rfl | rfl | rfl | rfl | rfl | rfl | rfl | rfl
    · injection h with h2
      rw [← h2]
      exact ⟨rfl, rfl, fun _ => rfl⟩
    · injection h with h2
      rw [← h2]
      exact ⟨rfl, rfl, fun _ => rfl⟩
    · injection h with h2
      rw [← h2]
      exact ⟨rfl, rfl, fun _ => rfl⟩
    · injection h with h2
      rw [← h2]
      exact ⟨rfl, rfl, fun _ => rfl⟩
    · injection h with h2
      rw [← h2]
      exact ⟨rfl, rfl, fun _ => rfl⟩
    · show r.data.isSome = true ∧ r.error = none ∧ _
      have h' : skeletonHandler input = .ok r := h
      unfold skeletonHandler at h'
      dsimp only at h'
      cases hm : skeletonLayouts input.itemCount
          (if input.animated then "animate-pulse" else "") with
      | error msg =>
        rw [hm] at h'
        exact absurd h' (by simp)
      | ok ls =>
        rw [hm] at h'
        injection h' with h2
        rw [← h2]
        exact ⟨rfl, rfl, fun _ => rfl⟩
    · injection h with h2
      rw [← h2]
      exact ⟨rfl, rfl, fun _ => rfl⟩
    · injection h with h2
      rw [← h2]
      exact ⟨rfl, rfl, fun _ => rfl⟩
    · injection h with h2
      rw [← h2]
      exact ⟨rfl, rfl, fun hne => absurd rfl hne⟩
  · intro e args r h
    injection h with h2
    rw [← h2]
    show ((analyzeHookIssues args.code args.fileName).length == 0) = true ↔ _
    simp [List.length_eq_zero]

/-- C10 witness. -/
theorem skills_never_populate_error_witness :
    (roleGuardHandler ⟨"UserRole", ["admin", "user"],
        "JwtPayload"⟩).data.isSome = true ∧
      (roleGuardHandler ⟨"UserRole", ["admin", "user"],
        "JwtPayload"⟩).error = none ∧
      (roleGuardSkill.name ≠ "analyze_hook_logic" →
        (roleGuardHandler ⟨"UserRole", ["admin", "user"],
          "JwtPayload"⟩).success = true) :=
  skills_never_populate_error.1 roleGuardSkill (List.Mem.head _) ⟨0⟩
    ⟨"UserRole", ["admin", "user"], "JwtPayload"⟩ _ rfl

/-- C6: schema validation rejects every input with a missing required
field (no `tableName` or no `columns` key for `table_generator`), a value
outside a declared enum (a `componentType` string outside the four
`ShadcnSchema` alternatives), or a string failing a declared regex (an
entry of `ips` that fails the IPv4 pattern of `AccessListManagerSchema`);
the invocation returns no result, so the handler never runs. -/
theorem schema_violations_rejected :
    (∀ fields : List (String × Json),
      (jLookup fields "tableName" = none ∨ jLookup fields "columns" = none) →
      tableGeneratorInvoke (.obj fields) = none) ∧
    (∀ (fields : List (String × Json)) (v : String),
      jLookup fields "componentType" = some (.str v) →
      v ∉ ["card", "form", "data-table", "modal"] →
      shadcnInvoke (.obj fields) = none) ∧
    (∀ (fields : List (String × Json)) (xs : List Json) (ip : String),
      jLookup fields "ips" = some (.arr xs) → Json.str ip ∈ xs →
      isValidIPv4 ip = false →
      accessListInvoke (.obj fields) = none) := by
  refine ⟨?_, ?_, ?_⟩
  · intro fields hmiss
    rcases hmiss with h | h
    · simp [tableGeneratorInvoke, tableGeneratorParse, parseStr, h]
    · cases htn : parseStr fields "tableName" with
      | none => simp [tableGeneratorInvoke, tableGeneratorParse, htn]
      | some tn => simp [tableGeneratorInvoke, tableGeneratorParse, htn, h]
  · intro fields v hv hmem
    simp only [List.mem_cons, List.not_mem_nil, or_false, not_or] at hmem
    obtain ⟨h1, h2, h3, h4⟩ := hmem
    simp [shadcnInvoke, shadcnParse, parseComponentType, hv, h1, h2, h3, h4]
  · intro fields xs ip hips hmem hbad
    have hnone : parseIpList xs = none := parseIpList_none xs ip hmem hbad
    cases ht : parseAclType fields with
    | none => simp [accessListInvoke, accessListParse, ht]
    | some t => simp [accessListInvoke, accessListParse, ht, hips, hnone]

/-- C6 witness. -/
theorem schema_violations_rejected_witness :
    tableGeneratorInvoke (.obj [("columns", .arr [])]) = none ∧
    shadcnInvoke (.obj [("componentType", .str "chart"),
      ("dataFields", .arr [])]) = none ∧
    accessListInvoke (.obj [("type", .str "whitelist"),
      ("ips", .arr [.str "999.0.0.1"])]) = none :=
  ⟨schema_violations_rejected.1 [("columns", .arr [])] (Or.inl rfl),
   schema_violations_rejected.2.1 [("componentType", .str "chart"),
     ("dataFields", .arr [])] "chart" rfl (by decide),
   schema_violations_rejected.2.2 [("type", .str "whitelist"),
     ("ips", .arr [.str "999.0.0.1"])] [.str "999.0.0.1"] "999.0.0.1" rfl
     (List.Mem.head _) (by decide)⟩

/-- C7 counterexample: with `withPagination = false` but a `tableName` that
itself embeds the pagination row-model line, the generated output contains
the fragment, so the claimed "absent whenever the flag is false" direction
fails as stated. -/
theorem table_generator_pagination_injection :
    (⟨"getPaginationRowModel: getPaginationRowModel(),", [], false, false,
        false⟩ : TableGeneratorArgs).withPagination = false ∧
    strContains (tableGeneratorCode
        ⟨"getPaginationRowModel: getPaginationRowModel(),", [], false, false,
          false⟩) tablePagModelLine = true :=
  ⟨rfl, by decide⟩

/-- C7 (amended): whenever `withPagination` is true the output contains
both pagination fragments (the `getPaginationRowModel` configuration line
and the Previous/Next button block); when `withPagination` is false the
fragments are absent for inputs whose interpolated fields do not themselves
embed them — witnessed at the spec's example table — though an adversarial
`tableName` can inject them (see the counterexample). -/
theorem table_generator_pagination_fragments :
    (∀ args : TableGeneratorArgs, args.withPagination = true →
      strHasInfix tablePagModelLine (tableGeneratorCode args) ∧
      strHasInfix "Previous" (tableGeneratorCode args)) ∧
    (strContains (tableGeneratorCode ⟨"UsersTable",
        [⟨"name", "Name", true⟩, ⟨"email", "Email", true⟩], false, true,
        true⟩) tablePagModelLine = false ∧
     strContains (tableGeneratorCode ⟨"UsersTable",
        [⟨"name", "Name", true⟩, ⟨"email", "Email", true⟩], false, true,
        true⟩) "Previous" = false) := by
  refine ⟨?_, by decide, by decide⟩
  intro args hflag
  constructor
  · unfold tableGeneratorCode
    rw [if_pos hflag, if_pos hflag]
    exact strHasInfix_left (strHasInfix_left (strHasInfix_left
      (strHasInfix_right _ (strHasInfix_refl _)) _) _) _
  · have hp : strHasInfix "Previous" tablePagButtonsBlock :=
      (strContains_iff _ _).mp (by decide)
    unfold tableGeneratorCode
    rw [if_pos hflag, if_pos hflag]
    exact strHasInfix_left (strHasInfix_right _ hp) _

/-- C7 witness. -/
theorem table_generator_pagination_fragments_witness :
    strHasInfix tablePagModelLine
      (tableGeneratorCode ⟨"UsersTable", [], true, true, true⟩) ∧
    strHasInfix "Previous"
      (tableGeneratorCode ⟨"UsersTable", [], true, true, true⟩) :=
  table_generator_pagination_fragments.1
    ⟨"UsersTable", [], true, true, true⟩ rfl

